import Mathlib

/-!
Verification of the virtual try-on generation/retry pipeline of
`backend/services/vton.py`.

The development shallowly embeds the decision logic of the module:
the rejection classifier `is_content_rejection`, the heuristic rewriter
`rewrite_for_modesty_heuristic`, the intimate-request classifier
`is_intimate_request`, the modesty-contract injection, the payload budget
loop, the image codec fallback, and the attempt loop of
`_generate_with_gemini`.  External effects (the Gemini HTTP calls, the
vision check and the LLM-assisted rewrite) are modelled as oracles passed
in as parameters; everything else is translated directly from the source.
-/

namespace VTON

/-! ## Python string primitives -/

/-- Whether list `p` is a prefix of list `s` (used to model Python `in`). -/
def chListPre : List Char → List Char → Bool
  | [], _ => true
  | _ :: _, [] => false
  | a :: ps, b :: ss => a == b && chListPre ps ss

/-- Whether `needle` occurs as a contiguous sublist of `s`
(models Python `needle in s` on strings). -/
def chListSub (needle : List Char) : List Char → Bool
  | [] => chListPre needle []
  | s@(_ :: rest) => chListPre needle s || chListSub needle rest

/-- Python `needle in hay` for strings. -/
def strContains (hay needle : String) : Bool :=
  chListSub needle.toList hay.toList

/-- Python `s[:n]` for strings. -/
def strTake (n : Nat) (s : String) : String :=
  String.mk (s.toList.take n)

/-- Python `s.lower()` (ASCII case mapping, as all vocabulary here is ASCII). -/
def pyLower (s : String) : String := String.mk (s.toList.map Char.toLower)

/-- Python `s.upper()` (ASCII case mapping). -/
def pyUpper (s : String) : String := String.mk (s.toList.map Char.toUpper)

/-- Python `s.strip()`: drop whitespace from both ends. -/
def pyStrip (s : String) : String :=
  String.mk (((s.toList.dropWhile Char.isWhitespace).reverse.dropWhile
    Char.isWhitespace).reverse)

/-- Python `s.startswith(p)`. -/
def strStarts (s p : String) : Bool := chListPre p.toList s.toList

/-- Python truthy-or on optional strings: `a or b` where `None` and `""` are falsy. -/
def optStrOr (a : Option String) (b : String) : String :=
  match a with
  | some s => if s == "" then b else s
  | none => b

/-! ## JSON-like values (Python dict/list/str/... metadata) -/

/-- A JSON-like value, modelling the dynamically typed metadata dictionaries. -/
inductive JValue where
  | jnull
  | jbool (b : Bool)
  | jnum (n : Int)
  | jstr (s : String)
  | jarr (elems : List JValue)
  | jobj (fields : List (String × JValue))

/-- Metadata dictionaries: association lists of string keys to JSON values
(Python dicts preserve insertion order, which the list models). -/
abbrev Meta := List (String × JValue)

/-- Python `d.get(k)`. -/
def jGet (m : Meta) (k : String) : Option JValue :=
  (List.find? (fun kv => kv.1 == k) m).map (fun kv => kv.2)

/-- Python `k in d`. -/
def jHasKey (m : Meta) (k : String) : Bool :=
  (jGet m k).isSome

/-- Python `d[k] = v`: update in place when present, else append. -/
def jSet (m : Meta) (k : String) (v : JValue) : Meta :=
  if jHasKey m k then
    List.map (fun kv => if kv.1 == k then (k, v) else kv) m
  else m ++ [(k, v)]

/-- Python `d.setdefault(k, v)`. -/
def jSetDefault (m : Meta) (k : String) (v : JValue) : Meta :=
  if jHasKey m k then m else m ++ [(k, v)]

/-- Python truthiness of a JSON-like value. -/
def pyTruthy : JValue → Bool
  | .jnull => false
  | .jbool b => b
  | .jnum n => n != 0
  | .jstr s => s ≠ ""
  | .jarr xs => !xs.isEmpty
  | .jobj kvs => !kvs.isEmpty

/-- Left brace character, built numerically. -/
def lbr : String := String.singleton (Char.ofNat 123)

/-- Right brace character, built numerically. -/
def rbr : String := String.singleton (Char.ofNat 125)

/-- Escape for JSON string serialization (backslash and double quote). -/
def jsonEscape (s : String) : String :=
  String.mk (s.toList.foldr
    (fun c acc =>
      if c == (Char.ofNat 92) then (Char.ofNat 92) :: (Char.ofNat 92) :: acc
      else if c == (Char.ofNat 34) then (Char.ofNat 92) :: (Char.ofNat 34) :: acc
      else c :: acc) [])

mutual

/-- Model of Python `json.dumps` (default separators), used by
`is_intimate_request` to scan the whole metadata object for keywords. -/
def jsonDump : JValue → String
  | .jnull => "null"
  | .jbool true => "true"
  | .jbool false => "false"
  | .jnum n => toString n
  | .jstr s => "\"" ++ jsonEscape s ++ "\""
  | .jarr xs => "[" ++ jsonDumpList xs ++ "]"
  | .jobj kvs => lbr ++ jsonDumpFields kvs ++ rbr

/-- Serialize array elements, comma separated. -/
def jsonDumpList : List JValue → String
  | [] => ""
  | [x] => jsonDump x
  | x :: xs => jsonDump x ++ ", " ++ jsonDumpList xs

/-- Serialize object fields, comma separated. -/
def jsonDumpFields : List (String × JValue) → String
  | [] => ""
  | [kv] => "\"" ++ jsonEscape kv.1 ++ "\": " ++ jsonDump kv.2
  | kv :: kvs => "\"" ++ jsonEscape kv.1 ++ "\": " ++ jsonDump kv.2 ++ ", " ++ jsonDumpFields kvs

end

/-! ## Rejection classifier (`is_content_rejection`, vton.py lines 54-91) -/

/-- Finish reasons treated as content rejections (vton.py line 18). -/
def CONTENT_REJECTION_FINISH_REASONS : List String :=
  ["IMAGE_SAFETY", "SAFETY", "CONTENT_FILTER", "PROHIBITED_CONTENT"]

/-- Keywords treated as content-rejection signals (vton.py lines 19-33). -/
def CONTENT_REJECTION_KEYWORDS : List String :=
  ["image_safety", "safety filter", "safety filters", "blocked", "block",
   "content policy", "policy", "sexually explicit", "sexual", "adult",
   "nsfw", "nudity", "explicit"]

/-- One entry of a candidate's safety-rating list; the source reads the
`category` and `probability` keys of each rating dict. -/
structure SafetyRating where
  category : String
  probability : String
deriving DecidableEq

/-- One iteration of the safety-rating loop in `is_content_rejection`:
true when this rating alone makes the classifier return true. -/
def rating_flags (r : SafetyRating) : Bool :=
  let cat := pyLower r.category
  let prob := pyLower r.probability
  strContains cat "sex" || strContains cat "explicit" || strContains cat "sexual" ||
    prob == "high" || prob == "medium"

/-- Embedding of `is_content_rejection` (vton.py lines 54-91): decides whether a
failure looks like a content/safety rejection worth a rewrite-and-retry. -/
def is_content_rejection (finish_reason : Option String) (http_status : Option Nat)
    (error_text : Option String) (safety_ratings : Option (List SafetyRating)) : Bool :=
  let fr := pyUpper (pyStrip (finish_reason.getD ""))
  if CONTENT_REJECTION_FINISH_REASONS.contains fr then true
  else
    let text := pyLower (error_text.getD "")
    if (http_status == some 400 || http_status == some 403 || http_status == some 422)
        && CONTENT_REJECTION_KEYWORDS.any (fun k => strContains text k) then true
    else
      let srs := safety_ratings.getD []
      if !srs.isEmpty && srs.any rating_flags then true
      else CONTENT_REJECTION_KEYWORDS.any (fun k => strContains text k)

/-! ## Heuristic rewriter (`rewrite_for_modesty_heuristic`, vton.py lines 94-167) -/

/-- The word-substitution table of `sanitize_text` inside
`rewrite_for_modesty_heuristic` (vton.py lines 109-128), in source order. -/
def heuristic_replacements : List (String × String) :=
  [("lingerie", "intimate apparel"),
   ("thong", "minimal undergarment"),
   ("bra", "supportive top"),
   ("panties", "undergarments"),
   ("nude", "neutral tone"),
   ("see-through", "semi-transparent"),
   ("transparent", "semi-transparent"),
   ("sheer", "semi-transparent"),
   ("fishnet", "patterned fabric"),
   ("fetish", "specialty"),
   ("bondage", "restraint-style"),
   ("stripper", "dance wear"),
   ("pole dancing", "fitness wear"),
   ("provocative", "bold"),
   ("sexy", "stylish"),
   ("seductive", "elegant"),
   ("risque", "daring"),
   ("cleavage", "neckline area")]

/-- Python regex `\w` over ASCII. -/
def isWordChar (c : Char) : Bool := c.isAlphanum || c == '_'

/-- Case-insensitive prefix strip: when the lowered pattern is a prefix of the
lowered input, return the remainder. -/
def stripPreCI : List Char → List Char → Option (List Char)
  | [], s => some s
  | _ :: _, [] => none
  | p :: ps, c :: cs => if p.toLower == c.toLower then stripPreCI ps cs else none

/-- Worker for `re.sub(rf"\b{pat}\b", rep, s, flags=IGNORECASE)`: scans left to
right, replacing non-overlapping whole-word case-insensitive occurrences.
`fuel` bounds the recursion (one unit per character of the original input). -/
def replaceWordAux (pat rep : List Char) : Nat → Option Char → List Char → List Char
  | 0, _, s => s
  | _ + 1, _, [] => []
  | fuel + 1, prev, c :: cs =>
    let bOk : Bool := match prev with | none => true | some p => !isWordChar p
    match (if bOk then stripPreCI pat (c :: cs) else none) with
    | some rest =>
      let aOk : Bool := match rest with | [] => true | d :: _ => !isWordChar d
      if aOk then
        rep ++ replaceWordAux pat rep fuel ((List.take pat.length (c :: cs)).getLast?) rest
      else c :: replaceWordAux pat rep fuel (some c) cs
    | none => c :: replaceWordAux pat rep fuel (some c) cs

/-- Whole-word case-insensitive replacement of `pat` by `rep` in `s`. -/
def replace_word_ci (pat rep s : String) : String :=
  String.mk (replaceWordAux pat.toList rep.toList s.length none s.toList)

/-- Collapse whitespace runs into single spaces
(models `re.sub(r"\s+", " ", out)`). -/
def squeezeWsAux : Bool → List Char → List Char
  | _, [] => []
  | inWs, c :: cs =>
    if c.isWhitespace then
      if inWs then squeezeWsAux true cs else ' ' :: squeezeWsAux true cs
    else c :: squeezeWsAux false cs

/-- Embedding of `sanitize_text` inside `rewrite_for_modesty_heuristic`
(vton.py lines 107-134): apply every table substitution in order, then
collapse whitespace and strip. -/
def sanitize_text (s : String) : String :=
  let out := heuristic_replacements.foldl (fun acc pr => replace_word_ci pr.1 pr.2 acc) s
  pyStrip (String.mk (squeezeWsAux false out.toList))

mutual

/-- Embedding of `sanitize_value` inside `rewrite_for_modesty_heuristic`
(vton.py lines 136-143): recursive sanitization of every string value. -/
def sanitize_value : JValue → JValue
  | .jstr s => .jstr (sanitize_text s)
  | .jarr xs => .jarr (sanitize_value_list xs)
  | .jobj kvs => .jobj (sanitize_value_fields kvs)
  | v => v

/-- Sanitize every element of a list value. -/
def sanitize_value_list : List JValue → List JValue
  | [] => []
  | x :: xs => sanitize_value x :: sanitize_value_list xs

/-- Sanitize every value of a dict, keeping keys unchanged. -/
def sanitize_value_fields : List (String × JValue) → List (String × JValue)
  | [] => []
  | kv :: kvs => (kv.1, sanitize_value kv.2) :: sanitize_value_fields kvs

end

/-- The fixed safety-compliance guidance appended to the prompt by the
heuristic rewriter (vton.py lines 154-164). -/
def safety_guidance (strictness : String) : String :=
  let base :=
    "\n\nSAFETY COMPLIANCE (MANDATORY): Create a general-audience fashion image. " ++
    "Avoid suggestive context, avoid close-up framing, keep styling professional and modest. " ++
    "If any garment appears revealing or semi-transparent, automatically add opaque lining/layering " ++
    "and increase coverage while keeping the garment recognizable."
  if strictness == "max" then
    base ++
      " Prioritize compliance over fidelity: default to conservative studio portrait framing, " ++
      "fully opaque fabrics, and layered styling when uncertain."
  else base

/-- Embedding of `rewrite_for_modesty_heuristic` (vton.py lines 94-167).
Returns `(new_metadata, new_prompt, change_summary)`. -/
def rewrite_for_modesty_heuristic (metadata : Option Meta) (prompt : String)
    (strictness : String) : Meta × String × String :=
  let safe0 := metadata.getD []
  let safe1 := sanitize_value_fields safe0
  let safe2 := jSetDefault safe1 "framing" (.jstr "three_quarter")
  let safe3 := jSetDefault safe2 "background" (.jstr "neutral studio background")
  let safe4 := jSetDefault safe3 "camera"
    (.jstr "professional fashion editorial, neutral studio, avoid close-ups")
  let safe5 := jSetDefault safe4 "pose" (.jstr "neutral standing pose")
  let safe6 := jSetDefault safe5 "content_policy" (.jstr "general_audience")
  (safe6, sanitize_text prompt ++ safety_guidance strictness,
    "heuristic_rewrite(strictness=" ++ strictness ++ ")")

/-! ## Intimate-request classifier (`is_intimate_request`, vton.py lines 925-965) -/

/-- Intimate/minimal-coverage vocabulary (vton.py lines 35-51). -/
def INTIMATE_KEYWORDS : List String :=
  ["lingerie", "underwear", "panties", "thong", "bra", "bralette", "bustier",
   "corset", "nude", "nudity", "sheer", "see-through", "see through",
   "transparent", "fishnet"]

/-- Python `any(w in v.lower() for w in INTIMATE_KEYWORDS)`. -/
def hasIntimateKw (v : String) : Bool :=
  INTIMATE_KEYWORDS.any (fun w => strContains (pyLower v) w)

/-- Keyword scan over an optional string or list-of-strings metadata value,
as the source does for the extra hint keys. -/
def valueHasIntimateKw : Option JValue → Bool
  | some (.jstr v) => hasIntimateKw v
  | some (.jarr xs) =>
    xs.any (fun x => match x with | .jstr s => hasIntimateKw s | _ => false)
  | _ => false

/-- Keyword scan over one `items_wearing_styles` entry (vton.py lines 950-961). -/
def itemHasIntimateKw : JValue → Bool
  | .jobj fields =>
    (["descriptor", "item_type", "category", "subcategory", "body_region",
      "wearing_style", "prompt_text"].any (fun k =>
        match jGet fields k with
        | some (.jstr v) => hasIntimateKw v
        | _ => false))
    || (match jGet fields "tags" with
        | some (.jarr ts) =>
          ts.any (fun t => match t with | .jstr s => hasIntimateKw s | _ => false)
        | _ => false)
  | _ => false

/-- Embedding of `is_intimate_request` (vton.py lines 925-965): category hint,
then a `json.dumps` keyword scan, then specific hint keys, then per-item
wearing metadata. -/
def is_intimate_request (meta : Meta) (cat : String) : Bool :=
  let catL := pyLower cat
  if catL == "intimates" || catL == "lingerie" || catL == "swimwear" || catL == "bikini" then
    true
  else
    let scanText := pyLower (jsonDump (.jobj meta))
    if INTIMATE_KEYWORDS.any (fun k => strContains scanText k) then true
    else if ["subcategory", "item_type", "category", "body_region", "tags"].any
        (fun k => valueHasIntimateKw (jGet meta k)) then true
    else
      match jGet meta "items_wearing_styles" with
      | some (.jarr items) => items.any itemHasIntimateKw
      | _ => false

/-- Embedding of `apply_modesty_contract` (vton.py lines 1054-1069). -/
def apply_modesty_contract (meta : Meta) : Meta :=
  let o1 := jSet meta "modesty_contract" (.jbool true)
  let o2 := jSet o1 "intimate_mode" (.jbool true)
  let o3 := jSetDefault o2 "framing" (.jstr "three_quarter")
  let o4 := jSetDefault o3 "background" (.jstr "neutral studio background")
  let o5 := jSetDefault o4 "pose" (.jstr "neutral standing pose")
  let o6 := jSetDefault o5 "camera"
    (.jstr "professional fashion editorial, neutral studio, avoid close-ups")
  let o7 := jSetDefault o6 "content_policy" (.jstr "general_audience")
  let o8 := jSetDefault o7 "allow_underlayer" (.jbool true)
  let o9 := jSetDefault o8 "coverage_preference" (.jstr "high")
  let o10 := jSetDefault o9 "opacity_preference" (.jstr "opaque")
  jSetDefault o10 "avoid_closeups" (.jbool true)

/-! ## LLM-assisted rewrite result handling
(`rewrite_for_modesty_gemini`, vton.py lines 290-302) -/

/-- Python `str(...)` for the values the source can feed it here; only string
payloads occur in the claims, other shapes are rendered via the JSON dump. -/
def pyStr : JValue → String
  | .jstr s => s
  | v => jsonDump v

/-- Embedding of the result handling of `rewrite_for_modesty_gemini`
(vton.py lines 290-302): given the input metadata and the JSON object parsed
from the text model's reply, compute `(new_metadata, prompt_additions)`.
The transport (HTTP call, fence stripping, JSON parsing) raises on failure
and is handled by the caller's fallback; this definition covers the
successfully-parsed dict case. Note that the source adopts the model's
returned metadata object wholesale whenever it is a truthy dict, falling back
to the input metadata (or an empty dict) only when it is missing or falsy. -/
def gemini_rewrite_extract (metadata : Option Meta) (parsed : List (String × JValue)) :
    Meta × String :=
  let prompt_additions :=
    match jGet parsed "prompt_additions" with
    | some v => if pyTruthy v then pyStr v else ""
    | none => ""
  let metaFallback := metadata.getD []
  let newMetaRaw : JValue :=
    match jGet parsed "metadata" with
    | some v => if pyTruthy v then v else .jobj metaFallback
    | none => .jobj metaFallback
  let newMeta : Meta :=
    match newMetaRaw with
    | .jobj kvs => kvs
    | _ => metaFallback
  (newMeta, prompt_additions)

/-! ## Image codec (`image_to_base64`, vton.py lines 417-457) -/

/-- Standard base64 alphabet. -/
def b64Alphabet : List Char :=
  "ABCDEFGHIJKLMNOPQRSTUVWXYZabcdefghijklmnopqrstuvwxyz0123456789+/".toList

/-- Character of the base64 alphabet at a 6-bit index. -/
def b64Char (n : Nat) : Char := b64Alphabet.getD n 'A'

/-- Base64-encode a byte list (chunks of three bytes, `=` padding). -/
def base64EncodeList : List Nat → List Char
  | [] => []
  | [a] =>
    [b64Char (a / 4 % 64), b64Char (a % 4 * 16), '=', '=']
  | [a, b] =>
    [b64Char (a / 4 % 64), b64Char ((a % 4 * 16 + b / 16) % 64),
     b64Char (b % 16 * 4), '=']
  | a :: b :: c :: rest =>
    b64Char (a / 4 % 64) :: b64Char ((a % 4 * 16 + b / 16) % 64) ::
      b64Char ((b % 16 * 4 + c / 64) % 64) :: b64Char (c % 64) ::
      base64EncodeList rest

/-- Model of `base64.b64encode(bytes).decode("utf-8")`. -/
def base64Encode (bs : List Nat) : String := String.mk (base64EncodeList bs)

/-- Decoded image as PIL exposes it to this code path: dimensions after EXIF
transposition, and whether an alpha/transparency channel is present. -/
structure DecodedImage where
  width : Nat
  height : Nat
  hasAlpha : Bool

/-- Downscale preserving aspect ratio when the longest edge exceeds `maxDim`
(vton.py lines 429-438); `int(round(w * scale))` is modelled with rounded
natural division. -/
def downscaleImage (img : DecodedImage) (maxDim : Nat) : DecodedImage :=
  let longest := max img.width img.height
  if maxDim < longest then
    { img with
      width := max 1 ((img.width * maxDim + longest / 2) / longest),
      height := max 1 ((img.height * maxDim + longest / 2) / longest) }
  else img

/-- Embedding of `image_to_base64` (vton.py lines 417-457).  PIL decoding and
re-encoding are oracles: `decode` returns `none` exactly when
`Image.open`/`exif_transpose` raises on the input bytes, and `encodePNG` /
`encodeJPEG` give the bytes PIL would produce for the (possibly downscaled)
image.  Every exception of the original `try` block is caught by the source:
the embedding is a total function, and on decode failure it returns the raw
bytes base64-encoded with the default `image/jpeg` MIME type. -/
def image_to_base64 (decode : List Nat → Option DecodedImage)
    (encodePNG : DecodedImage → List Nat)
    (encodeJPEG : DecodedImage → Nat → List Nat)
    (image_bytes : List Nat) (max_dim jpeg_quality : Nat) : String × String :=
  match decode image_bytes with
  | none => (base64Encode image_bytes, "image/jpeg")
  | some img0 =>
    let img := downscaleImage img0 max_dim
    if img.hasAlpha then (base64Encode (encodePNG img), "image/png")
    else (base64Encode (encodeJPEG img jpeg_quality), "image/jpeg")

/-! ## Payload budget loop (vton.py lines 459-585) -/

/-- Default byte ceiling `VTON_MAX_TOTAL_IMAGE_BYTES` (vton.py line 461). -/
def default_max_total_image_bytes : Nat := 12 * 1024 * 1024

/-- The fixed iteration cap of the downscaling loop (vton.py line 529). -/
def max_iters : Nat := 6

/-- The dimension/quality knobs handed to `build_encoded_images`. -/
structure EncParams where
  main_user_dim : Nat
  other_user_dim : Nat
  first_garment_dim : Nat
  other_garment_dim : Nat
  main_user_q : Nat
  other_user_q : Nat
  first_garment_q : Nat
  other_garment_q : Nat
deriving DecidableEq

/-- Initial targets (vton.py lines 519-526). -/
def initial_enc_params : EncParams :=
  { main_user_dim := 2200, other_user_dim := 1600,
    first_garment_dim := 1800, other_garment_dim := 1400,
    main_user_q := 90, other_user_q := 82,
    first_garment_q := 86, other_garment_q := 80 }

/-- One shrink step of the budget loop (vton.py lines 551-563);
`int(x * 0.85)` and friends are modelled as floored natural division. -/
def shrink_enc_params (min_main_user_dim min_main_user_q : Nat) (p : EncParams) : EncParams :=
  { other_user_dim := max 900 (p.other_user_dim * 85 / 100),
    other_garment_dim := max 850 (p.other_garment_dim * 85 / 100),
    other_user_q := max 70 (p.other_user_q - 4),
    other_garment_q := max 68 (p.other_garment_q - 4),
    first_garment_dim := max 1000 (p.first_garment_dim * 90 / 100),
    first_garment_q := max 72 (p.first_garment_q - 3),
    main_user_dim := max min_main_user_dim (p.main_user_dim * 92 / 100),
    main_user_q := max min_main_user_q (p.main_user_q - 2) }

/-- The `for _i in range(max_iters)` loop (vton.py lines 547-574): check the
estimate, break when at or under budget, otherwise shrink and re-encode.
`estimate` abstracts `build_encoded_images`'s total-byte estimate as a
function of the knobs (the image bytes are fixed for the whole request).
Returns the final knobs and the number of re-encodes performed. -/
def budget_iter (estimate : EncParams → Nat) (maxTotal minDim minQ : Nat) :
    Nat → EncParams → EncParams × Nat
  | 0, p => (p, 0)
  | n + 1, p =>
    if estimate p ≤ maxTotal then (p, 0)
    else
      let res := budget_iter estimate maxTotal minDim minQ n (shrink_enc_params minDim minQ p)
      (res.1, res.2 + 1)

/-- The whole budget-enforcement pass: start from the initial knobs and run the
capped loop; if still over budget the caller proceeds best-effort with the
final encoding (vton.py lines 576-585). -/
def payload_budget (estimate : EncParams → Nat) (maxTotal minDim minQ : Nat) :
    EncParams × Nat :=
  budget_iter estimate maxTotal minDim minQ max_iters initial_enc_params

/-! ## Input normalization (vton.py lines 406-413) -/

/-- Embedding of `user_image_bytes_list[:5]` / `garment_image_bytes_list[:5]`:
oversized image lists are silently truncated to their first five entries
(a warning is logged; no validation error is raised). -/
def limit_images (l : List (List Nat)) : List (List Nat) := l.take 5

/-! ## Generation orchestrator / retry state machine
(`_generate_with_gemini`, vton.py lines 919-1536)

External interactions are oracles:
  * `buildPrompt` abstracts `build_base_text_prompt` (the prompt wording is
    out of scope; only the fact that the prompt is rebuilt from the current
    metadata matters to the control flow);
  * `gem a` abstracts the outcome of `rewrite_for_modesty_gemini` on attempt
    `a` (`.ok (new_metadata, prompt_additions, summary)` for a parsed reply,
    `.error msg` when the call raises and the heuristic fallback fires);
  * `responses a` abstracts the generation API's behaviour on attempt `a`;
  * `vision` abstracts `detect_intimate_from_gemini_vision`.
The `calls` counter instruments the number of generation-API calls made
(one per loop iteration; rewrite and vision calls are not generation calls).
-/

/-- One row of `retry_info`. -/
structure AttemptRecord where
  attempt : Nat
  strategy : String
  reason : String
  modificationsSummary : String
deriving DecidableEq

/-- Inline image payload of a response part (either key casing). -/
structure InlineData where
  data : String
  mime_type : Option String
  mimeType : Option String
deriving DecidableEq

/-- One content part of a response candidate. -/
structure Part where
  text : Option String
  inline_data : Option InlineData
  inlineDataCamel : Option InlineData
deriving DecidableEq

/-- The success-path finish-reason test `finish_reason in (None, "STOP")`
(vton.py line 1373): absent/falsy finish reasons are accepted as normal. -/
def fr_normal (fr : Option String) : Bool :=
  match fr with | none => true | some s => s == "STOP"

/-- The image-extraction test applied to one part (vton.py lines 1357-1371):
snake_case `inline_data` is tried first; `inlineData` is only consulted when
the snake_case key is absent; a present-but-empty `data` yields nothing. -/
def part_image (p : Part) : Option InlineData :=
  match p.inline_data with
  | some d => if d.data == "" then none else some d
  | none =>
    match p.inlineDataCamel with
    | some d => if d.data == "" then none else some d
    | none => none

/-- First image payload among the candidate's parts (vton.py lines 1355-1371). -/
def find_image_part (parts : List Part) : Option InlineData :=
  parts.findSome? part_image

/-- Non-empty text parts of the candidate (`summarize_candidate`,
vton.py lines 1107-1113). -/
def candidate_texts (parts : List Part) : List String :=
  parts.filterMap (fun p => p.text.bind (fun t => if t == "" then none else some t))

/-- Shape of one generation-API call's outcome, as the attempt loop branches
on it.  `candidate` carries the first candidate's (falsy-normalized) finish
reason, safety ratings and content parts; `noCandidates` carries the textual
rendering of the response body that `is_content_rejection` scans;
`timeout` and `exc` are the exception branches. -/
inductive ApiResponse where
  | httpError (status : Nat) (text : String)
  | noCandidates (bodyText : String)
  | candidate (finishReason : Option String) (safetyRatings : List SafetyRating)
      (parts : List Part)
  | timeout (message : String)
  | exc (message : String)

/-- Loop state threaded across attempts. -/
structure LoopState where
  meta : Meta
  prompt : String
  retryInfo : List AttemptRecord
  modestyApplied : Bool
  calls : Nat

/-- Terminal result: the returned success dict, or the raised `ValueError`
(kind, message); both carry the `retry_info` value at that point and the
number of generation calls made, for observability. -/
inductive Outcome where
  | success (imageData : String) (mimeType : String) (retryInfo : List AttemptRecord)
      (modestyApplied : Bool) (calls : Nat)
  | failure (kind : String) (message : String) (retryInfo : List AttemptRecord)
      (calls : Nat)
deriving DecidableEq

/-- The retry-record list carried by an outcome. -/
def outcome_retry_info : Outcome → List AttemptRecord
  | .success _ _ ri _ _ => ri
  | .failure _ _ ri _ => ri

/-- The generation-call count carried by an outcome. -/
def outcome_calls : Outcome → Nat
  | .success _ _ _ _ c => c
  | .failure _ _ _ c => c

/-- Whether the outcome is a success. -/
def outcome_is_success : Outcome → Bool
  | .success _ _ _ _ _ => true
  | .failure _ _ _ _ => false

/-- The `modesty_applied` flag of a success outcome. -/
def outcome_modesty : Outcome → Option Bool
  | .success _ _ _ ma _ => some ma
  | .failure _ _ _ _ => none

/-- The attempt budget (vton.py line 919). -/
def max_attempts : Nat := 4

/-- The failure-driven rewrite of the HTTP-error branch (vton.py lines
1204-1299) and of the no-image branch (vton.py lines 1413-1503); the two are
identical.  Attempt 1 failure: heuristic rewrite of the rebuilt base prompt.
Attempt 2 (resp. 3) failure: Gemini text rewrite at moderate (resp. max)
strictness, always re-sanitized heuristically, falling back to a plain
heuristic rewrite of the current prompt when the Gemini call raises. -/
def rewrite_step (buildPrompt : Meta → String)
    (gem : Nat → Except String (Meta × String × String))
    (attempt : Nat) (st : LoopState) : LoopState :=
  if attempt == 1 then
    let r := rewrite_for_modesty_heuristic (some st.meta) (buildPrompt st.meta) "moderate"
    { st with
      meta := r.1
      prompt := r.2.1
      retryInfo := st.retryInfo ++
        [⟨attempt + 1, "heuristic", "content_rejection", r.2.2⟩] }
  else if attempt == 2 then
    match gem 2 with
    | .ok g =>
      let r := rewrite_for_modesty_heuristic (some g.1) g.2.1 "moderate"
      { st with
        meta := r.1
        prompt := buildPrompt r.1 ++ "\n\n" ++ r.2.1
        retryInfo := st.retryInfo ++
          [⟨attempt + 1, "gemini_rewrite", "content_rejection", g.2.2 ++ ";" ++ r.2.2⟩] }
    | .error e =>
      let r := rewrite_for_modesty_heuristic (some st.meta) st.prompt "moderate"
      { st with
        meta := r.1
        prompt := r.2.1
        retryInfo := st.retryInfo ++
          [⟨attempt + 1, "heuristic", "gemini_rewrite_failed_fallback",
            r.2.2 ++ ";err=" ++ strTake 120 e⟩] }
  else if attempt == 3 then
    match gem 3 with
    | .ok g =>
      let r := rewrite_for_modesty_heuristic (some g.1) g.2.1 "max"
      { st with
        meta := r.1
        prompt := buildPrompt r.1 ++ "\n\n" ++ r.2.1
        retryInfo := st.retryInfo ++
          [⟨attempt + 1, "gemini_rewrite", "content_rejection", g.2.2 ++ ";" ++ r.2.2⟩] }
    | .error e =>
      let r := rewrite_for_modesty_heuristic (some st.meta) st.prompt "max"
      { st with
        meta := r.1
        prompt := r.2.1
        retryInfo := st.retryInfo ++
          [⟨attempt + 1, "heuristic", "gemini_rewrite_failed_fallback",
            r.2.2 ++ ";err=" ++ strTake 120 e⟩] }
  else st

/-- Step outcome: terminate with an outcome, or continue with a new state. -/
inductive StepRes where
  | done (o : Outcome)
  | next (st : LoopState)

/-- The user-facing hint appended when the exhaustion looks safety-related
(vton.py lines 1507-1509). -/
def safety_hint_text : String :=
  " The request was blocked by image safety filters. Please use a less revealing garment description or select a different item."

/-- The no-usable-image path of the candidate branch (vton.py lines 1391-1511):
classify, rewrite on attempts before the last, and raise with finish reason
plus a safety hint on the last attempt. -/
def candidate_failure (buildPrompt : Meta → String)
    (gem : Nat → Except String (Meta × String × String))
    (maxA : Nat) (attempt : Nat) (fr : Option String) (ratings : List SafetyRating)
    (parts : List Part) (st : LoopState) : StepRes :=
  let texts := candidate_texts parts
  let should := is_content_rejection fr none (some ((texts.head?).getD "")) (some ratings)
  let st1 := if should && decide (attempt < maxA) then rewrite_step buildPrompt gem attempt st else st
  if attempt == maxA then
    let readable := strTake 300 ((texts.head?).getD "")
    let frU := pyUpper (fr.getD "")
    let hint :=
      if frU == "IMAGE_SAFETY" || should || strStarts frU "IMAGE_" then safety_hint_text
      else ""
    .done (.failure "no_image"
      ("No image generated after " ++ toString maxA ++ " attempts. Finish reason: " ++
        (fr.getD "UNKNOWN") ++ ". Model message: " ++ readable ++ "." ++ hint)
      st1.retryInfo st1.calls)
  else .next st1

/-- One iteration of the attempt loop (vton.py lines 1145-1536). -/
def attempt_step (buildPrompt : Meta → String)
    (gem : Nat → Except String (Meta × String × String))
    (maxA : Nat) (attempt : Nat) (resp : ApiResponse) (st0 : LoopState) : StepRes :=
  let st := { st0 with calls := st0.calls + 1 }
  match resp with
  | .httpError status txt =>
    let should := is_content_rejection none (some status) (some txt) none
    let st1 := if should && decide (attempt < maxA) then rewrite_step buildPrompt gem attempt st else st
    if attempt == maxA then
      .done (.failure "http_error"
        ("Gemini API error after " ++ toString maxA ++ " attempts: " ++
          toString status ++ " - " ++ txt) st1.retryInfo st1.calls)
    else .next st1
  | .noCandidates body =>
    let should := is_content_rejection none none (some body) none
    let st1 :=
      if should && decide (attempt < maxA) then
        let r := rewrite_for_modesty_heuristic (some st.meta) (buildPrompt st.meta) "moderate"
        { st with
          meta := r.1
          prompt := r.2.1
          retryInfo := st.retryInfo ++
            [⟨attempt + 1, "heuristic", "no_candidates", r.2.2⟩] }
      else st
    if attempt == maxA then
      .done (.failure "no_candidates" "No candidates returned from Gemini 3 Pro Image"
        st1.retryInfo st1.calls)
    else .next st1
  | .candidate fr ratings parts =>
    let ip := find_image_part parts
    match ip with
    | some d =>
      if fr_normal fr then
        if d.data == "" then
          if attempt == maxA then
            .done (.failure "empty_image_data" "Image data is empty in Gemini response"
              st.retryInfo st.calls)
          else .next st
        else
          .done (.success d.data (optStrOr d.mime_type (optStrOr d.mimeType "image/png"))
            st.retryInfo st.modestyApplied st.calls)
      else
        candidate_failure buildPrompt gem maxA attempt fr ratings parts st
    | none =>
      candidate_failure buildPrompt gem maxA attempt fr ratings parts st
  | .timeout _ =>
    if attempt == maxA then
      .done (.failure "timeout"
        ("Request timed out after " ++ toString maxA ++ " attempts. Please try again.")
        st.retryInfo st.calls)
    else .next st
  | .exc msg =>
    if attempt == maxA then
      .done (.failure "exception" msg st.retryInfo st.calls)
    else .next st

/-- Run the attempts in `l` in order (the source's `for attempt in
range(1, max_attempts + 1)`); the empty case is unreachable because every
branch terminates at `attempt == maxA`. -/
def run_attempts (buildPrompt : Meta → String)
    (gem : Nat → Except String (Meta × String × String))
    (responses : Nat → ApiResponse) (maxA : Nat) : List Nat → LoopState → Outcome
  | [], st => .failure "exhausted" "" st.retryInfo st.calls
  | a :: rest, st =>
    match attempt_step buildPrompt gem maxA a (responses a) st with
    | .done o => o
    | .next st2 => run_attempts buildPrompt gem responses maxA rest st2

/-- The attempt numbers `1 .. maxA`. -/
def attempts_list (maxA : Nat) : List Nat := (List.range maxA).map (· + 1)

/-- The generation loop from a given pre-loop state. -/
def run_generation_loop (buildPrompt : Meta → String)
    (gem : Nat → Except String (Meta × String × String))
    (responses : Nat → ApiResponse) (st : LoopState) : Outcome :=
  run_attempts buildPrompt gem responses max_attempts (attempts_list max_attempts) st

/-- The retry-info row recorded when the vision check flags an intimate item
(vton.py lines 1129-1134). -/
def vision_record (label : String) : AttemptRecord :=
  ⟨1, "intimate_vision_detect", "gemini_vision",
    if label == "" then "Detected intimate item via Gemini vision." else label⟩

/-- Embedding of `apply_intimate_pipeline` (vton.py lines 1074-1099): apply the
modesty contract, record it, then a preflight heuristic sanitization pass
(whose metadata result is re-wrapped in the contract), recorded as well. -/
def apply_intimate_pipeline (buildPrompt : Meta → String) (reason : String)
    (st : LoopState) : LoopState :=
  let m1 := apply_modesty_contract st.meta
  let st1 : LoopState := { st with
    meta := m1
    modestyApplied := true
    retryInfo := st.retryInfo ++
      [⟨1, "modesty_contract_preflight", reason,
        "Applied deterministic modesty contract (coverage/underlayer allowed)."⟩] }
  let r := rewrite_for_modesty_heuristic (some st1.meta) (buildPrompt st1.meta) "moderate"
  { st1 with
    meta := apply_modesty_contract r.1
    retryInfo := st1.retryInfo ++ [(⟨1, "preflight_heuristic", reason, r.2.2⟩ : AttemptRecord)] }

/-- The full generation flow of `_generate_with_gemini` after image encoding
(vton.py lines 919-1536): metadata-based intimate detection, the best-effort
vision check (only when metadata found nothing and a garment exists; any
vision failure is swallowed), the preflight modesty pipeline, the base-prompt
build, and the attempt loop. -/
def run_generation (buildPrompt : Meta → String)
    (gem : Nat → Except String (Meta × String × String))
    (vision : Except String (Bool × String)) (responses : Nat → ApiResponse)
    (category : String) (garment_metadata : Option Meta) (hasGarments : Bool) : Outcome :=
  let meta0 := garment_metadata.getD []
  let intimate0 := is_intimate_request meta0 category
  let st0 : LoopState :=
    { meta := meta0, prompt := "", retryInfo := [], modestyApplied := false, calls := 0 }
  let step1 : Bool × LoopState :=
    if !intimate0 && hasGarments then
      match vision with
      | .ok (true, label) =>
        (true, { st0 with retryInfo := st0.retryInfo ++ [vision_record label] })
      | .ok (false, _) => (false, st0)
      | .error _ => (false, st0)
    else (intimate0, st0)
  let st2 :=
    if step1.1 && !step1.2.modestyApplied then
      apply_intimate_pipeline buildPrompt "intimate_detected" step1.2
    else step1.2
  let st3 := { st2 with prompt := buildPrompt st2.meta }
  run_generation_loop buildPrompt gem responses st3

/-- A generation-call outcome that the loop body classifies as a content
rejection: a failure-shaped response for which the branch's
`is_content_rejection` call returns `true` (timeouts and other exceptions are
never classified). -/
def classified_rejection_failure : ApiResponse → Bool
  | .httpError status txt => is_content_rejection none (some status) (some txt) none
  | .noCandidates body => is_content_rejection none none (some body) none
  | .candidate fr ratings parts =>
    (!((find_image_part parts).isSome && fr_normal fr)) &&
      is_content_rejection fr none (some (((candidate_texts parts).head?).getD ""))
        (some ratings)
  | .timeout _ => false
  | .exc _ => false

/-! ## Theorems -/

/-- C6: `is_content_rejection` is deterministic — two calls with equal
arguments return equal verdicts (the embedding is a pure function of its
four arguments; the source reads only its arguments and two module-level
constant tables, and mutates nothing). -/
theorem rejection_classifier_deterministic
    (fr fr' : Option String) (hs hs' : Option Nat) (et et' : Option String)
    (sr sr' : Option (List SafetyRating))
    (h1 : fr = fr') (h2 : hs = hs') (h3 : et = et') (h4 : sr = sr') :
    is_content_rejection fr hs et sr = is_content_rejection fr' hs' et' sr' := by
  subst h1; subst h2; subst h3; subst h4; rfl

/-- Witness for C6 at a concrete synthetic payload. -/
theorem rejection_classifier_deterministic_witness :
    is_content_rejection (some "IMAGE_SAFETY") none (some "blocked") none =
      is_content_rejection (some "IMAGE_SAFETY") none (some "blocked") none :=
  rejection_classifier_deterministic (some "IMAGE_SAFETY") (some "IMAGE_SAFETY")
    none none (some "blocked") (some "blocked") none none rfl rfl rfl rfl

/-- C7: the image codec never propagates a decode failure — whenever PIL
decoding fails on the input bytes, `image_to_base64` returns the base64
encoding of the raw input bytes with the default `image/jpeg` MIME type
(and, being a total function, it returns a payload on every input). -/
theorem image_codec_decode_failure_fallback
    (decode : List Nat → Option DecodedImage) (encodePNG : DecodedImage → List Nat)
    (encodeJPEG : DecodedImage → Nat → List Nat) (image_bytes : List Nat)
    (max_dim jpeg_quality : Nat) (h : decode image_bytes = none) :
    image_to_base64 decode encodePNG encodeJPEG image_bytes max_dim jpeg_quality =
      (base64Encode image_bytes, "image/jpeg") := by
  unfold image_to_base64
  rw [h]

/-- Witness for C7: undecodable bytes still produce a base64 payload. -/
theorem image_codec_decode_failure_fallback_witness :
    image_to_base64 (fun _ => none) (fun _ => []) (fun _ _ => []) [255, 0, 10] 1024 85 =
      (base64Encode [255, 0, 10], "image/jpeg") :=
  image_codec_decode_failure_fallback (fun _ => none) (fun _ => []) (fun _ _ => [])
    [255, 0, 10] 1024 85 rfl

/-- Helper for C8: the capped budget loop performs at most `fuel` re-encodes,
and when it stops early the final estimate is at or under the ceiling. -/
theorem budget_iter_bound (estimate : EncParams → Nat) (maxTotal minDim minQ : Nat) :
    ∀ (fuel : Nat) (p : EncParams),
      (budget_iter estimate maxTotal minDim minQ fuel p).2 ≤ fuel ∧
        (estimate (budget_iter estimate maxTotal minDim minQ fuel p).1 ≤ maxTotal ∨
          (budget_iter estimate maxTotal minDim minQ fuel p).2 = fuel) := by
  intro fuel
  induction fuel with
  | zero => intro p; simp [budget_iter]
  | succ n ih =>
    intro p
    by_cases h : estimate p ≤ maxTotal
    · simp [budget_iter, h]
    · have := ih (shrink_enc_params minDim minQ p)
      simp only [budget_iter, if_neg h]
      refine ⟨by omega, ?_⟩
      rcases this.2 with h2 | h2
      · exact Or.inl h2
      · exact Or.inr (by omega)

/-- C8: the payload-budget pass terminates after at most `max_iters` (6)
re-encodes; it stops early once the estimated total base64 payload is at or
under the byte ceiling, and otherwise exhausts the cap and proceeds with the
last encoding (the pass always returns an encoding; it never loops
unboundedly). -/
theorem payload_budget_convergence (estimate : EncParams → Nat)
    (maxTotal minDim minQ : Nat) :
    (payload_budget estimate maxTotal minDim minQ).2 ≤ max_iters ∧
      (estimate (payload_budget estimate maxTotal minDim minQ).1 ≤ maxTotal ∨
        (payload_budget estimate maxTotal minDim minQ).2 = max_iters) :=
  budget_iter_bound estimate maxTotal minDim minQ max_iters initial_enc_params

/-- C10: oversized image lists do not fail validation — `generate_try_on` /
`_generate_with_gemini` silently truncate each list to its first five
entries (the truncation is total: no error is raised at the boundary) and
proceed with exactly five images. -/
theorem image_limit_truncates (users garments : List (List Nat))
    (hu : 5 < users.length) (hg : 5 < garments.length) :
    limit_images users <+: users ∧ (limit_images users).length = 5 ∧
      limit_images garments <+: garments ∧ (limit_images garments).length = 5 := by
  refine ⟨List.take_prefix 5 users, ?_, List.take_prefix 5 garments, ?_⟩ <;>
    simp [limit_images, List.length_take] <;> omega

/-- Witness for C10 with six-element lists. -/
theorem image_limit_truncates_witness :
    limit_images [[0], [1], [2], [3], [4], [5]] <+: [[0], [1], [2], [3], [4], [5]] ∧
      (limit_images [[0], [1], [2], [3], [4], [5]]).length = 5 ∧
      limit_images [[9], [8], [7], [6], [5], [4]] <+: [[9], [8], [7], [6], [5], [4]] ∧
      (limit_images [[9], [8], [7], [6], [5], [4]]).length = 5 :=
  image_limit_truncates [[0], [1], [2], [3], [4], [5]] [[9], [8], [7], [6], [5], [4]]
    (by decide) (by decide)

/-- Helper: on attempts 1-3, a failure-driven rewrite appends exactly one
retry record and touches neither the call counter nor the modesty flag. -/
theorem rewrite_step_stats (bp : Meta → String)
    (gem : Nat → Except String (Meta × String × String)) (a : Nat) (st : LoopState)
    (ha : a = 1 ∨ a = 2 ∨ a = 3) :
    (rewrite_step bp gem a st).retryInfo.length = st.retryInfo.length + 1 ∧
      (rewrite_step bp gem a st).calls = st.calls ∧
      (rewrite_step bp gem a st).modestyApplied = st.modestyApplied := by
  rcases ha with h | h | h <;> subst h
  · simp [rewrite_step]
  · cases hg : gem 2 <;> simp [rewrite_step, hg]
  · cases hg : gem 3 <;> simp [rewrite_step, hg]

/-- Helper: a response classified as a content rejection on attempts 1-3
continues to the next attempt, appending exactly one retry record and
consuming exactly one generation call. -/
theorem attempt_step_classified_next (bp : Meta → String)
    (gem : Nat → Except String (Meta × String × String)) (a : Nat)
    (r : ApiResponse) (st : LoopState)
    (hc : classified_rejection_failure r = true) (ha : a = 1 ∨ a = 2 ∨ a = 3) :
    ∃ st', attempt_step bp gem max_attempts a r st = StepRes.next st' ∧
      st'.retryInfo.length = st.retryInfo.length + 1 ∧
      st'.calls = st.calls + 1 ∧
      st'.modestyApplied = st.modestyApplied := by
  have hst := rewrite_step_stats bp gem a { st with calls := st.calls + 1 } ha
  have ha4 : (a == max_attempts) = false := by
    rcases ha with h | h | h <;> subst h <;> decide
  have halt : decide (a < max_attempts) = true := by
    rcases ha with h | h | h <;> subst h <;> decide
  cases r with
  | httpError status txt =>
    simp only [classified_rejection_failure] at hc
    simp only [attempt_step, hc, halt, Bool.and_self, if_true, ha4, Bool.false_eq_true,
      if_false]
    exact ⟨_, rfl, by simpa using hst⟩
  | noCandidates body =>
    simp only [classified_rejection_failure] at hc
    simp only [attempt_step, hc, halt, Bool.and_self, if_true, ha4, Bool.false_eq_true,
      if_false]
    exact ⟨_, rfl, by simp⟩
  | candidate fr ratings parts =>
    simp only [classified_rejection_failure, Bool.and_eq_true, Bool.not_eq_true'] at hc
    obtain ⟨himg, hshould⟩ := hc
    cases hip : find_image_part parts with
    | none =>
      simp only [attempt_step, hip, candidate_failure, hshould, halt, Bool.and_self,
        if_true, ha4, Bool.false_eq_true, if_false]
      exact ⟨_, rfl, by simpa using hst⟩
    | some d =>
      have hfr : fr_normal fr = false := by
        have h2 := himg
        rw [hip] at h2
        simpa using h2
      simp only [attempt_step, hip, hfr, Bool.false_eq_true, if_false,
        candidate_failure, hshould, halt, Bool.and_self, if_true, ha4]
      exact ⟨_, rfl, by simpa using hst⟩
  | timeout m => simp [classified_rejection_failure] at hc
  | exc m => simp [classified_rejection_failure] at hc

/-- Helper: a response classified as a content rejection on the last attempt
terminates with a failure that carries the retry records unchanged and the
final call count. -/
theorem attempt_step_classified_last (bp : Meta → String)
    (gem : Nat → Except String (Meta × String × String)) (r : ApiResponse)
    (st : LoopState) (hc : classified_rejection_failure r = true) :
    ∃ k m, attempt_step bp gem max_attempts max_attempts r st =
      StepRes.done (.failure k m st.retryInfo (st.calls + 1)) := by
  have hdec : decide (max_attempts < max_attempts) = false := by decide
  cases r with
  | httpError status txt =>
    simp only [attempt_step, hdec, Bool.and_false, Bool.false_eq_true, if_false,
      beq_self_eq_true, if_true]
    exact ⟨_, _, rfl⟩
  | noCandidates body =>
    simp only [attempt_step, hdec, Bool.and_false, Bool.false_eq_true, if_false,
      beq_self_eq_true, if_true]
    exact ⟨_, _, rfl⟩
  | candidate fr ratings parts =>
    simp only [classified_rejection_failure, Bool.and_eq_true, Bool.not_eq_true'] at hc
    obtain ⟨himg, hshould⟩ := hc
    cases hip : find_image_part parts with
    | none =>
      simp only [attempt_step, hip, candidate_failure, hdec, Bool.and_false,
        Bool.false_eq_true, if_false, beq_self_eq_true, if_true]
      exact ⟨_, _, rfl⟩
    | some d =>
      have hfr : fr_normal fr = false := by
        have h2 := himg
        rw [hip] at h2
        simpa using h2
      simp only [attempt_step, hip, hfr, candidate_failure, hdec, Bool.and_false,
        Bool.false_eq_true, if_false, beq_self_eq_true, if_true]
      exact ⟨_, _, rfl⟩
  | timeout m => simp [classified_rejection_failure] at hc
  | exc m => simp [classified_rejection_failure] at hc

/-- C1: when every one of the `max_attempts` (4) generation calls is
classified as a content rejection, the loop performs exactly `max_attempts`
generation calls and terminates in a failure whose retry-record list has
grown by exactly `max_attempts - 1` rows — one per failure-then-rewrite
transition (the last attempt fails without a further rewrite). -/
theorem attempt_budget_exact (bp : Meta → String)
    (gem : Nat → Except String (Meta × String × String))
    (responses : Nat → ApiResponse) (st : LoopState)
    (h : ∀ a, a ∈ attempts_list max_attempts →
      classified_rejection_failure (responses a) = true) :
    ∃ k m ri, run_generation_loop bp gem responses st = .failure k m ri
        (st.calls + max_attempts) ∧
      ri.length = st.retryInfo.length + (max_attempts - 1) := by
  obtain ⟨s1, e1, l1, c1, _⟩ := attempt_step_classified_next bp gem 1 (responses 1) st
    (h 1 (by decide)) (Or.inl rfl)
  obtain ⟨s2, e2, l2, c2, _⟩ := attempt_step_classified_next bp gem 2 (responses 2) s1
    (h 2 (by decide)) (Or.inr (Or.inl rfl))
  obtain ⟨s3, e3, l3, c3, _⟩ := attempt_step_classified_next bp gem 3 (responses 3) s2
    (h 3 (by decide)) (Or.inr (Or.inr rfl))
  obtain ⟨k, m, e4⟩ := attempt_step_classified_last bp gem (responses 4) s3
    (h 4 (by decide))
  refine ⟨k, m, s3.retryInfo, ?_, by simp only [max_attempts]; omega⟩
  have hl : attempts_list max_attempts = [1, 2, 3, 4] := rfl
  have e4' : attempt_step bp gem max_attempts 4 (responses 4) s3 =
      StepRes.done (Outcome.failure k m s3.retryInfo (s3.calls + 1)) := e4
  have hcalls : s3.calls + 1 = st.calls + max_attempts := by
    simp only [max_attempts]; omega
  rw [hcalls] at e4'
  simp only [run_generation_loop, hl, run_attempts, Nat.reduceAdd, e1, e2, e3, e4']

/-- Witness for C1: four HTTP 400 policy errors yield a failure after exactly
four calls with three retry records. -/
theorem attempt_budget_exact_witness :
    ∃ k m ri, run_generation_loop (fun _ => "") (fun _ => .error "x")
        (fun _ => .httpError 400 "violates content policy")
        { meta := [], prompt := "", retryInfo := [], modestyApplied := false,
          calls := 0 } = .failure k m ri (0 + max_attempts) ∧
      ri.length = List.length ([] : List AttemptRecord) + (max_attempts - 1) := by
  refine attempt_budget_exact (fun _ => "") (fun _ => .error "x")
    (fun _ => .httpError 400 "violates content policy")
    { meta := [], prompt := "", retryInfo := [], modestyApplied := false, calls := 0 } ?_
  intro a _
  exact (by decide :
    classified_rejection_failure (ApiResponse.httpError 400 "violates content policy") = true)

/-- C9: a timed-out generation call is transient — it consumes one attempt
and triggers neither classification nor rewriting, so when every one of the
`max_attempts` attempts times out the loop makes exactly `max_attempts`
calls, appends no retry record at all, and fails with the timeout-specific
message. -/
theorem timeout_transient_all_attempts (bp : Meta → String)
    (gem : Nat → Except String (Meta × String × String))
    (responses : Nat → ApiResponse) (st : LoopState)
    (h : ∀ a, a ∈ attempts_list max_attempts →
      ∃ msg, responses a = ApiResponse.timeout msg) :
    run_generation_loop bp gem responses st =
      .failure "timeout" "Request timed out after 4 attempts. Please try again."
        st.retryInfo (st.calls + max_attempts) := by
  obtain ⟨m1, e1⟩ := h 1 (by decide)
  obtain ⟨m2, e2⟩ := h 2 (by decide)
  obtain ⟨m3, e3⟩ := h 3 (by decide)
  obtain ⟨m4, e4⟩ := h 4 (by decide)
  have hl : attempts_list max_attempts = [1, 2, 3, 4] := rfl
  simp only [run_generation_loop, hl, run_attempts, Nat.reduceAdd, e1, e2, e3, e4]
  rfl

/-- Witness for C9: all four attempts time out. -/
theorem timeout_transient_all_attempts_witness :
    run_generation_loop (fun _ => "") (fun _ => .error "x") (fun _ => .timeout "t")
        { meta := [], prompt := "", retryInfo := [], modestyApplied := false,
          calls := 0 } =
      .failure "timeout" "Request timed out after 4 attempts. Please try again."
        [] (0 + max_attempts) :=
  timeout_transient_all_attempts (fun _ => "") (fun _ => .error "x") (fun _ => .timeout "t")
    { meta := [], prompt := "", retryInfo := [], modestyApplied := false, calls := 0 }
    (fun _ _ => ⟨"t", rfl⟩)

/-- C2 counterexample: a run in which attempts 1 and 2 both fail via the
no-candidates path with a rejection keyword in the body.  The failure of
attempt 2 is classified as a content rejection, yet its recorded rewrite
strategy is "heuristic" with reason "no_candidates" — not the LLM-assisted
rewrite and not its recorded fallback (reason
"gemini_rewrite_failed_fallback") that the claim requires for a second
failure, even though the LLM rewrite oracle was available and succeeding. -/
theorem strategy_escalation_counterexample :
    run_generation_loop (fun _ => "") (fun _ => Except.ok ([], "", "gsum"))
      (fun a => if a ≤ 2 then ApiResponse.noCandidates "blocked"
        else ApiResponse.candidate (some "STOP") []
          [⟨none, some ⟨"IMG", some "image/png", none⟩, none⟩])
      { meta := [], prompt := "", retryInfo := [], modestyApplied := false,
        calls := 0 } =
    Outcome.success "IMG" "image/png"
      [⟨2, "heuristic", "no_candidates", "heuristic_rewrite(strictness=moderate)"⟩,
       ⟨3, "heuristic", "no_candidates", "heuristic_rewrite(strictness=moderate)"⟩]
      false 3 ∧
    ("heuristic" : String) ≠ "gemini_rewrite" ∧
    ("no_candidates" : String) ≠ "gemini_rewrite_failed_fallback" := by
  refine ⟨by decide, by decide, by decide⟩

/-- The attempt-indexed strategy schedule of the claim, as recorded rows:
a first-attempt failure records "heuristic"; a second (third) attempt failure
records the LLM-assisted "gemini_rewrite" at moderate (max) strictness or its
heuristic fallback marked "gemini_rewrite_failed_fallback". -/
def schedule_ok (a : Nat) (old new : List AttemptRecord) : Prop :=
  (a = 1 → ∃ s, new = old ++ [⟨2, "heuristic", "content_rejection", s⟩]) ∧
  (a = 2 → ∃ s, new = old ++ [⟨3, "gemini_rewrite", "content_rejection", s⟩] ∨
      new = old ++ [⟨3, "heuristic", "gemini_rewrite_failed_fallback", s⟩]) ∧
  (a = 3 → ∃ s, new = old ++ [⟨4, "gemini_rewrite", "content_rejection", s⟩] ∨
      new = old ++ [⟨4, "heuristic", "gemini_rewrite_failed_fallback", s⟩])

/-- Helper: the shared failure-driven rewrite follows the attempt-indexed
schedule. -/
theorem rewrite_step_schedule (bp : Meta → String)
    (gem : Nat → Except String (Meta × String × String)) (st : LoopState)
    (a : Nat) (ha : a = 1 ∨ a = 2 ∨ a = 3) :
    schedule_ok a st.retryInfo (rewrite_step bp gem a st).retryInfo := by
  rcases ha with h | h | h <;> subst h
  · exact ⟨fun _ =>
      ⟨(rewrite_for_modesty_heuristic (some st.meta) (bp st.meta) "moderate").2.2,
        by simp [rewrite_step]⟩,
      fun he => absurd he (by decide), fun he => absurd he (by decide)⟩
  · refine ⟨fun he => absurd he (by decide), fun _ => ?_,
      fun he => absurd he (by decide)⟩
    cases hg : gem 2 with
    | ok g =>
      exact ⟨g.2.2 ++ ";" ++
        (rewrite_for_modesty_heuristic (some g.1) g.2.1 "moderate").2.2,
        Or.inl (by simp [rewrite_step, hg])⟩
    | error e =>
      exact ⟨(rewrite_for_modesty_heuristic (some st.meta) st.prompt "moderate").2.2 ++
        ";err=" ++ strTake 120 e,
        Or.inr (by simp [rewrite_step, hg])⟩
  · refine ⟨fun he => absurd he (by decide), fun he => absurd he (by decide),
      fun _ => ?_⟩
    cases hg : gem 3 with
    | ok g =>
      exact ⟨g.2.2 ++ ";" ++
        (rewrite_for_modesty_heuristic (some g.1) g.2.1 "max").2.2,
        Or.inl (by simp [rewrite_step, hg])⟩
    | error e =>
      exact ⟨(rewrite_for_modesty_heuristic (some st.meta) st.prompt "max").2.2 ++
        ";err=" ++ strTake 120 e,
        Or.inr (by simp [rewrite_step, hg])⟩

/-- C2 amended: strategy selection is attempt-indexed exactly as claimed on
the HTTP-error failure path and on the candidate-without-usable-image failure
path (attempt 1 → "heuristic", attempt 2 → "gemini_rewrite" at moderate
strictness or its recorded "gemini_rewrite_failed_fallback" heuristic
fallback, attempt 3 → the same at max strictness); but on the no-candidates
failure path, every rewrite is the heuristic one with reason "no_candidates",
regardless of the attempt index. -/
theorem strategy_escalation_amended (bp : Meta → String)
    (gem : Nat → Except String (Meta × String × String)) (st : LoopState)
    (a : Nat) (ha : a = 1 ∨ a = 2 ∨ a = 3)
    (status : Nat) (txt : String)
    (hHttp : is_content_rejection none (some status) (some txt) none = true)
    (fr : Option String) (ratings : List SafetyRating) (parts : List Part)
    (hCand : classified_rejection_failure
      (ApiResponse.candidate fr ratings parts) = true)
    (body : String)
    (hBody : is_content_rejection none none (some body) none = true) :
    (∃ st', attempt_step bp gem max_attempts a (.httpError status txt) st =
        StepRes.next st' ∧ schedule_ok a st.retryInfo st'.retryInfo) ∧
    (∃ st', attempt_step bp gem max_attempts a (.candidate fr ratings parts) st =
        StepRes.next st' ∧ schedule_ok a st.retryInfo st'.retryInfo) ∧
    (∃ st' s, attempt_step bp gem max_attempts a (.noCandidates body) st =
        StepRes.next st' ∧
      st'.retryInfo = st.retryInfo ++ [⟨a + 1, "heuristic", "no_candidates", s⟩]) := by
  have ha4 : (a == max_attempts) = false := by
    rcases ha with h | h | h <;> subst h <;> decide
  have halt : decide (a < max_attempts) = true := by
    rcases ha with h | h | h <;> subst h <;> decide
  have hsched := rewrite_step_schedule bp gem { st with calls := st.calls + 1 } a ha
  refine ⟨?_, ?_, ?_⟩
  · simp only [attempt_step, hHttp, halt, Bool.and_self, if_true, ha4,
      Bool.false_eq_true, if_false]
    exact ⟨_, rfl, hsched⟩
  · simp only [classified_rejection_failure, Bool.and_eq_true, Bool.not_eq_true'] at hCand
    obtain ⟨himg, hshould⟩ := hCand
    cases hip : find_image_part parts with
    | none =>
      simp only [attempt_step, hip, candidate_failure, hshould, halt, Bool.and_self,
        if_true, ha4, Bool.false_eq_true, if_false]
      exact ⟨_, rfl, hsched⟩
    | some d =>
      have hfr : fr_normal fr = false := by
        have h2 := himg
        rw [hip] at h2
        simpa using h2
      simp only [attempt_step, hip, hfr, Bool.false_eq_true, if_false,
        candidate_failure, hshould, halt, Bool.and_self, if_true, ha4]
      exact ⟨_, rfl, hsched⟩
  · simp only [attempt_step, hBody, halt, Bool.and_self, if_true, ha4,
      Bool.false_eq_true, if_false]
    exact ⟨_, (rewrite_for_modesty_heuristic (some st.meta) (bp st.meta) "moderate").2.2,
      rfl, by simp⟩

/-- Witness for C2 amended, at attempt 2 with concrete classified failures. -/
theorem strategy_escalation_amended_witness :
    (∃ st', attempt_step (fun _ => "") (fun _ => Except.ok ([], "", "g")) max_attempts 2
        (.httpError 400 "violates content policy")
        { meta := [], prompt := "", retryInfo := [], modestyApplied := false,
          calls := 0 } = StepRes.next st' ∧ schedule_ok 2 [] st'.retryInfo) ∧
    (∃ st', attempt_step (fun _ => "") (fun _ => Except.ok ([], "", "g")) max_attempts 2
        (.candidate (some "IMAGE_SAFETY") [] [])
        { meta := [], prompt := "", retryInfo := [], modestyApplied := false,
          calls := 0 } = StepRes.next st' ∧ schedule_ok 2 [] st'.retryInfo) ∧
    (∃ st' s, attempt_step (fun _ => "") (fun _ => Except.ok ([], "", "g")) max_attempts 2
        (.noCandidates "blocked")
        { meta := [], prompt := "", retryInfo := [], modestyApplied := false,
          calls := 0 } = StepRes.next st' ∧
      st'.retryInfo = [] ++ [⟨2 + 1, "heuristic", "no_candidates", s⟩]) :=
  strategy_escalation_amended (fun _ => "") (fun _ => Except.ok ([], "", "g"))
    { meta := [], prompt := "", retryInfo := [], modestyApplied := false, calls := 0 }
    2 (Or.inr (Or.inl rfl)) 400 "violates content policy" (by decide)
    (some "IMAGE_SAFETY") [] [] (by decide) "blocked" (by decide)

/-- Helper: a step terminates with a success only from a candidate response
whose finish reason passes the `(None, "STOP")` test and whose parts contain
an inline image payload with non-empty data equal to the returned bytes. -/
theorem attempt_step_success_inv (bp : Meta → String)
    (gem : Nat → Except String (Meta × String × String)) (maxA a : Nat)
    (r : ApiResponse) (st : LoopState) (d m : String) (ri : List AttemptRecord)
    (ma : Bool) (c : Nat)
    (h : attempt_step bp gem maxA a r st = StepRes.done (Outcome.success d m ri ma c)) :
    ∃ fr ratings parts ip, r = ApiResponse.candidate fr ratings parts ∧
      fr_normal fr = true ∧ find_image_part parts = some ip ∧ ip.data = d ∧ d ≠ "" := by
  cases r with
  | httpError status txt =>
    simp only [attempt_step] at h
    split at h <;> simp at h
  | noCandidates body =>
    simp only [attempt_step] at h
    split at h <;> simp at h
  | candidate fr ratings parts =>
    cases hip : find_image_part parts with
    | none =>
      simp only [attempt_step, hip, candidate_failure] at h
      split at h <;> simp at h
    | some dd =>
      by_cases hfr : fr_normal fr = true
      · by_cases hdata : (dd.data == "") = true
        · simp only [attempt_step, hip, hfr, if_true, hdata] at h
          split at h <;> simp at h
        · simp only [attempt_step, hip, hfr, if_true, hdata, Bool.false_eq_true,
            if_false] at h
          obtain ⟨hd, -, -, -, -⟩ := Outcome.success.inj (StepRes.done.inj h)
          refine ⟨fr, ratings, parts, dd, rfl, hfr, hip, hd, ?_⟩
          rw [← hd]
          simpa using hdata
      · have hfr' : fr_normal fr = false := by simpa using hfr
        simp only [attempt_step, hip, hfr', Bool.false_eq_true, if_false,
          candidate_failure] at h
        split at h <;> simp at h
  | timeout msg =>
    simp only [attempt_step] at h
    split at h <;> simp at h
  | exc msg =>
    simp only [attempt_step] at h
    split at h <;> simp at h

/-- Helper: a successful run of the attempt list originates from one of its
attempts, whose response is a normal-finish candidate with a non-empty inline
image payload equal to the returned bytes. -/
theorem run_attempts_success_inv (bp : Meta → String)
    (gem : Nat → Except String (Meta × String × String))
    (responses : Nat → ApiResponse) (maxA : Nat) (l : List Nat) :
    ∀ (st : LoopState) (d m : String) (ri : List AttemptRecord) (ma : Bool) (c : Nat),
      run_attempts bp gem responses maxA l st = Outcome.success d m ri ma c →
      ∃ a, a ∈ l ∧ ∃ fr ratings parts ip,
        responses a = ApiResponse.candidate fr ratings parts ∧
        fr_normal fr = true ∧ find_image_part parts = some ip ∧ ip.data = d ∧
        d ≠ "" := by
  induction l with
  | nil =>
    intro st d m ri ma c h
    simp [run_attempts] at h
  | cons a rest ih =>
    intro st d m ri ma c h
    simp only [run_attempts] at h
    cases hs : attempt_step bp gem maxA a (responses a) st with
    | done o =>
      rw [hs] at h
      simp only [] at h
      subst h
      exact ⟨a, List.mem_cons_self a rest,
        attempt_step_success_inv bp gem maxA a (responses a) st d m ri ma c hs⟩
    | next st2 =>
      rw [hs] at h
      simp only [] at h
      obtain ⟨a', ha', rest'⟩ := ih st2 d m ri ma c h
      exact ⟨a', List.mem_cons_of_mem a ha', rest'⟩

/-- C5 counterexample: the external response carries a candidate with NO
finish reason at all (the key is absent) and an inline image; the loop
returns a success on attempt 1.  No normal completion status was reported,
refuting "success only when the response reports a normal completion
status"; the source accepts `finish_reason in (None, "STOP")`. -/
theorem success_without_finish_reason_cex :
    run_generation_loop (fun _ => "") (fun _ => Except.error "x")
      (fun _ => ApiResponse.candidate none [] [⟨none, some ⟨"Z", none, none⟩, none⟩])
      { meta := [], prompt := "", retryInfo := [], modestyApplied := false,
        calls := 0 } =
      Outcome.success "Z" "image/png" [] false 1 := by
  decide

/-- C5 amended: a success is returned only when some attempt's response is a
candidate whose finish reason is either absent or the normal "STOP" value AND
whose parts contain an inline image payload with a present, non-empty data
field (which is exactly the returned image data); every other candidate shape
is treated as a failure for that attempt. -/
theorem success_shape_amended (bp : Meta → String)
    (gem : Nat → Except String (Meta × String × String))
    (responses : Nat → ApiResponse) (st : LoopState) (d m : String)
    (ri : List AttemptRecord) (ma : Bool) (c : Nat)
    (h : run_generation_loop bp gem responses st = Outcome.success d m ri ma c) :
    ∃ a, a ∈ attempts_list max_attempts ∧ ∃ fr ratings parts ip,
      responses a = ApiResponse.candidate fr ratings parts ∧
      (fr = none ∨ fr = some "STOP") ∧ find_image_part parts = some ip ∧
      ip.data = d ∧ d ≠ "" := by
  obtain ⟨a, hmem, fr, ratings, parts, ip, hr, hfr, hip, hd, hne⟩ :=
    run_attempts_success_inv bp gem responses max_attempts
      (attempts_list max_attempts) st d m ri ma c h
  refine ⟨a, hmem, fr, ratings, parts, ip, hr, ?_, hip, hd, hne⟩
  cases fr with
  | none => exact Or.inl rfl
  | some s =>
    right
    simp only [fr_normal, beq_iff_eq] at hfr
    rw [hfr]

/-- Witness for C5 amended: a run that succeeds on attempt 1. -/
theorem success_shape_amended_witness :
    ∃ a, a ∈ attempts_list max_attempts ∧ ∃ fr ratings parts ip,
      (fun (_ : Nat) => ApiResponse.candidate (some "STOP") []
        [⟨none, some ⟨"Z", some "image/png", none⟩, none⟩]) a =
        ApiResponse.candidate fr ratings parts ∧
      (fr = none ∨ fr = some "STOP") ∧ find_image_part parts = some ip ∧
      ip.data = "Z" ∧ ("Z" : String) ≠ "" :=
  success_shape_amended (fun _ => "") (fun _ => Except.error "x")
    (fun _ => ApiResponse.candidate (some "STOP") []
      [⟨none, some ⟨"Z", some "image/png", none⟩, none⟩])
    { meta := [], prompt := "", retryInfo := [], modestyApplied := false, calls := 0 }
    "Z" "image/png" [] false 1 (by decide)

/-- Helper: an extracted image payload always has non-empty data. -/
theorem part_image_nonempty (p : Part) (ip : InlineData)
    (h : part_image p = some ip) : (ip.data == "") = false := by
  unfold part_image at h
  cases hp : p.inline_data with
  | some d =>
    rw [hp] at h
    by_cases hd : (d.data == "") = true
    · simp [hd] at h
    · have : d = ip := by
        simpa [hd] using h
      rw [← this]
      simpa using hd
  | none =>
    rw [hp] at h
    cases hq : p.inlineDataCamel with
    | some d =>
      rw [hq] at h
      by_cases hd : (d.data == "") = true
      · simp [hd] at h
      · have : d = ip := by
          simpa [hd] using h
        rw [← this]
        simpa using hd
    | none => rw [hq] at h; simp at h

/-- Helper: the first found image payload has non-empty data. -/
theorem find_image_part_nonempty (parts : List Part) (ip : InlineData)
    (h : find_image_part parts = some ip) : (ip.data == "") = false := by
  induction parts with
  | nil => simp [find_image_part] at h
  | cons p ps ih =>
    simp only [find_image_part, List.findSome?_cons] at h
    cases hp : part_image p with
    | some d =>
      rw [hp] at h
      have : d = ip := by simpa using h
      rw [← this]
      exact part_image_nonempty p d hp
    | none =>
      rw [hp] at h
      exact ih h

/-- Helper: a finish reason whose normalized form is in the rejection set is
classified as a content rejection whatever the other signals are. -/
theorem rejection_of_finish (s : String) (hstat : Option Nat) (et : Option String)
    (sr : Option (List SafetyRating))
    (hs : CONTENT_REJECTION_FINISH_REASONS.contains (pyUpper (pyStrip s)) = true) :
    is_content_rejection (some s) hstat et sr = true := by
  simp only [is_content_rejection, Option.getD_some, hs, if_true]

/-- Helper: a finish reason whose normalized form is in the rejection set is
not the success-path normal value. -/
theorem fr_not_stop (s : String)
    (hs : CONTENT_REJECTION_FINISH_REASONS.contains (pyUpper (pyStrip s)) = true) :
    fr_normal (some s) = false := by
  simp only [fr_normal]
  by_cases h : (s == "STOP") = true
  · exfalso
    have hst : s = "STOP" := by simpa using h
    subst hst
    exact absurd hs (by decide)
  · simpa using h

/-- Helper: a rejected (non-normal, classified) candidate on any attempt 1-3
steps to exactly the shared failure-driven rewrite of the call-counted
state. -/
theorem attempt_step_candidate_rejected (bp : Meta → String)
    (gem : Nat → Except String (Meta × String × String)) (a : Nat)
    (fr : Option String) (ratings : List SafetyRating) (parts : List Part)
    (st : LoopState) (ha : a = 1 ∨ a = 2 ∨ a = 3)
    (hfrn : fr_normal fr = false)
    (hcls : is_content_rejection fr none
      (some (((candidate_texts parts).head?).getD "")) (some ratings) = true) :
    attempt_step bp gem max_attempts a (.candidate fr ratings parts) st =
      StepRes.next (rewrite_step bp gem a { st with calls := st.calls + 1 }) := by
  have ha4 : (a == max_attempts) = false := by
    rcases ha with h | h | h <;> subst h <;> decide
  have halt : decide (a < max_attempts) = true := by
    rcases ha with h | h | h <;> subst h <;> decide
  cases hip : find_image_part parts with
  | none =>
    simp only [attempt_step, hip, candidate_failure, hcls, halt, Bool.and_self,
      if_true, ha4, Bool.false_eq_true, if_false]
  | some d =>
    simp only [attempt_step, hip, hfrn, Bool.false_eq_true, if_false,
      candidate_failure, hcls, halt, Bool.and_self, if_true, ha4]

/-- Helper: a normal-finish candidate with an image payload returns success
immediately, carrying the current records, modesty flag and call count. -/
theorem attempt_step_success (bp : Meta → String)
    (gem : Nat → Except String (Meta × String × String)) (a : Nat)
    (fr : Option String) (ratings : List SafetyRating) (parts : List Part)
    (st : LoopState) (ip : InlineData)
    (hfrn : fr_normal fr = true) (hip : find_image_part parts = some ip) :
    attempt_step bp gem max_attempts a (.candidate fr ratings parts) st =
      StepRes.done (.success ip.data
        (optStrOr ip.mime_type (optStrOr ip.mimeType "image/png"))
        st.retryInfo st.modestyApplied (st.calls + 1)) := by
  have hne := find_image_part_nonempty parts ip hip
  simp only [attempt_step, hip, hfrn, if_true, hne, Bool.false_eq_true, if_false]

/-- Helper: metadata whose serialized form contains "lingerie" is detected as
an intimate request. -/
theorem is_intimate_of_scan (meta : Meta) (cat : String)
    (h : strContains (pyLower (jsonDump (JValue.jobj meta))) "lingerie" = true) :
    is_intimate_request meta cat = true := by
  have hany : INTIMATE_KEYWORDS.any
      (fun k => strContains (pyLower (jsonDump (JValue.jobj meta))) k) = true :=
    List.any_eq_true.mpr ⟨"lingerie", by decide, h⟩
  simp only [is_intimate_request]
  split
  · rfl
  · simp only [hany, if_true]

/-- C3 counterexample: metadata contains "lingerie", the first three
generation calls return the safety finish reason and the fourth a normal
completion with image data.  The run does succeed with
`modesty_applied = true`, but the returned retry-record list has length 5,
not 3, and its first record's strategy is "modesty_contract_preflight", not
"heuristic": the intimate preflight appends two records before the loop's
three failure-rewrite records (the repository's own test
`test_vton_retries_and_returns_retry_info` likewise allows `>= 3` records
and expects the preflight strategy). -/
theorem safety_recovery_counterexample :
    (let o := run_generation (fun _ => "") (fun _ => Except.ok ([], "", "g"))
        (Except.error "unused")
        (fun a => if a ≤ 3 then ApiResponse.candidate (some "IMAGE_SAFETY")
            [⟨"HARM_CATEGORY_SEXUALLY_EXPLICIT", "HIGH"⟩]
            [⟨some "Blocked by safety filter", none, none⟩]
          else ApiResponse.candidate (some "STOP") []
            [⟨none, some ⟨"AAAA", some "image/png", none⟩, none⟩])
        "upper_body" (some [("description", JValue.jstr "lingerie")]) true;
      outcome_is_success o = true ∧ outcome_modesty o = some true ∧
        (outcome_retry_info o).length = 5 ∧
        (List.get? (outcome_retry_info o) 0).map (fun r => r.strategy) =
          some "modesty_contract_preflight" ∧
        (List.get? (outcome_retry_info o) 2).map (fun r => r.strategy) =
          some "heuristic") ∧
      (5 : Nat) ≠ 3 ∧
      ("modesty_contract_preflight" : String) ≠ "heuristic" := by
  exact ⟨⟨by decide, by decide, by decide, by decide, by decide⟩, by decide, by decide⟩

/-- Helper: on attempts 1-3 the failure-driven rewrite appends exactly one
record at the end of the list. -/
theorem rewrite_step_append (bp : Meta → String)
    (gem : Nat → Except String (Meta × String × String)) (a : Nat) (st : LoopState)
    (ha : a = 1 ∨ a = 2 ∨ a = 3) :
    ∃ rec, (rewrite_step bp gem a st).retryInfo = st.retryInfo ++ [rec] := by
  rcases ha with h | h | h <;> subst h
  · exact ⟨⟨2, "heuristic", "content_rejection",
      (rewrite_for_modesty_heuristic (some st.meta) (bp st.meta) "moderate").2.2⟩,
      by simp [rewrite_step]⟩
  · cases hg : gem 2 with
    | ok g =>
      exact ⟨⟨3, "gemini_rewrite", "content_rejection",
        g.2.2 ++ ";" ++ (rewrite_for_modesty_heuristic (some g.1) g.2.1 "moderate").2.2⟩,
        by simp [rewrite_step, hg]⟩
    | error e =>
      exact ⟨⟨3, "heuristic", "gemini_rewrite_failed_fallback",
        (rewrite_for_modesty_heuristic (some st.meta) st.prompt "moderate").2.2 ++
          ";err=" ++ strTake 120 e⟩,
        by simp [rewrite_step, hg]⟩
  · cases hg : gem 3 with
    | ok g =>
      exact ⟨⟨4, "gemini_rewrite", "content_rejection",
        g.2.2 ++ ";" ++ (rewrite_for_modesty_heuristic (some g.1) g.2.1 "max").2.2⟩,
        by simp [rewrite_step, hg]⟩
    | error e =>
      exact ⟨⟨4, "heuristic", "gemini_rewrite_failed_fallback",
        (rewrite_for_modesty_heuristic (some st.meta) st.prompt "max").2.2 ++
          ";err=" ++ strTake 120 e⟩,
        by simp [rewrite_step, hg]⟩

/-- C3 amended: for metadata whose serialization contains "lingerie", when
the first three generation calls return a safety finish-reason and the fourth
a normal completion with image data, the run succeeds with
`modesty_applied = true` after exactly 4 calls, and the retry-record list has
length exactly 5: two preflight rows ("modesty_contract_preflight" then
"preflight_heuristic", appended before the first call by the intimate
pipeline) followed by the three failure-rewrite rows, the first of which
(index 2) has strategy "heuristic". -/
theorem safety_recovery_amended (bp : Meta → String)
    (gem : Nat → Except String (Meta × String × String))
    (vision : Except String (Bool × String)) (responses : Nat → ApiResponse)
    (cat : String) (meta : Meta) (hasG : Bool)
    (hscan : strContains (pyLower (jsonDump (JValue.jobj meta))) "lingerie" = true)
    (s1 s2 s3 : String) (r1 r2 r3 r4 : List SafetyRating)
    (p1 p2 p3 p4 : List Part) (ip : InlineData)
    (e1 : responses 1 = ApiResponse.candidate (some s1) r1 p1)
    (e2 : responses 2 = ApiResponse.candidate (some s2) r2 p2)
    (e3 : responses 3 = ApiResponse.candidate (some s3) r3 p3)
    (e4 : responses 4 = ApiResponse.candidate (some "STOP") r4 p4)
    (hs1 : CONTENT_REJECTION_FINISH_REASONS.contains (pyUpper (pyStrip s1)) = true)
    (hs2 : CONTENT_REJECTION_FINISH_REASONS.contains (pyUpper (pyStrip s2)) = true)
    (hs3 : CONTENT_REJECTION_FINISH_REASONS.contains (pyUpper (pyStrip s3)) = true)
    (hip : find_image_part p4 = some ip) :
    ∃ mime ri, run_generation bp gem vision responses cat (some meta) hasG =
        Outcome.success ip.data mime ri true 4 ∧
      ri.length = 5 ∧
      (List.get? ri 0).map (fun r => r.strategy) = some "modesty_contract_preflight" ∧
      (List.get? ri 1).map (fun r => r.strategy) = some "preflight_heuristic" ∧
      (List.get? ri 2).map (fun r => r.strategy) = some "heuristic" := by
  have hint := is_intimate_of_scan meta cat hscan
  set st0 : LoopState :=
    { meta := meta, prompt := "", retryInfo := [], modestyApplied := false,
      calls := 0 } with hst0
  set stP := apply_intimate_pipeline bp "intimate_detected" st0 with hstP
  set st3 : LoopState := { stP with prompt := bp stP.meta } with hst3
  have hrg : run_generation bp gem vision responses cat (some meta) hasG =
      run_generation_loop bp gem responses st3 := by
    simp only [run_generation, Option.getD_some, hint, Bool.not_true, Bool.false_and,
      Bool.false_eq_true, if_false, Bool.not_false, Bool.and_self, if_true,
      hst0, hstP, hst3]
  set stA := rewrite_step bp gem 1 { st3 with calls := st3.calls + 1 } with hstA
  set stB := rewrite_step bp gem 2 { stA with calls := stA.calls + 1 } with hstB
  set stC := rewrite_step bp gem 3 { stB with calls := stB.calls + 1 } with hstC
  have E1 : attempt_step bp gem max_attempts 1 (responses 1) st3 = StepRes.next stA := by
    rw [e1]
    exact attempt_step_candidate_rejected bp gem 1 (some s1) r1 p1 st3 (Or.inl rfl)
      (fr_not_stop s1 hs1) (rejection_of_finish s1 none _ _ hs1)
  have E2 : attempt_step bp gem max_attempts 2 (responses 2) stA = StepRes.next stB := by
    rw [e2]
    exact attempt_step_candidate_rejected bp gem 2 (some s2) r2 p2 stA
      (Or.inr (Or.inl rfl)) (fr_not_stop s2 hs2) (rejection_of_finish s2 none _ _ hs2)
  have E3 : attempt_step bp gem max_attempts 3 (responses 3) stB = StepRes.next stC := by
    rw [e3]
    exact attempt_step_candidate_rejected bp gem 3 (some s3) r3 p3 stB
      (Or.inr (Or.inr rfl)) (fr_not_stop s3 hs3) (rejection_of_finish s3 none _ _ hs3)
  have E4 : attempt_step bp gem max_attempts 4 (responses 4) stC =
      StepRes.done (.success ip.data
        (optStrOr ip.mime_type (optStrOr ip.mimeType "image/png"))
        stC.retryInfo stC.modestyApplied (stC.calls + 1)) := by
    rw [e4]
    exact attempt_step_success bp gem 4 (some "STOP") r4 p4 stC ip (by decide) hip
  have hloop : run_generation_loop bp gem responses st3 =
      Outcome.success ip.data
        (optStrOr ip.mime_type (optStrOr ip.mimeType "image/png"))
        stC.retryInfo stC.modestyApplied (stC.calls + 1) := by
    have hl : attempts_list max_attempts = [1, 2, 3, 4] := rfl
    simp only [run_generation_loop, hl, run_attempts, Nat.reduceAdd, E1, E2, E3, E4]
  -- the preflight produces the two fixed records
  have hPri : stP.retryInfo =
      [⟨1, "modesty_contract_preflight", "intimate_detected",
        "Applied deterministic modesty contract (coverage/underlayer allowed)."⟩,
       ⟨1, "preflight_heuristic", "intimate_detected",
        "heuristic_rewrite(strictness=moderate)"⟩] := by
    simp [hstP, apply_intimate_pipeline, hst0, rewrite_for_modesty_heuristic]
  have hPm : stP.modestyApplied = true := by
    simp [hstP, apply_intimate_pipeline]
  have hPc : stP.calls = 0 := by
    simp [hstP, apply_intimate_pipeline, hst0]
  -- the first failure rewrite appends the heuristic record
  have hAri : stA.retryInfo = stP.retryInfo ++
      [⟨2, "heuristic", "content_rejection",
        (rewrite_for_modesty_heuristic (some st3.meta) (bp st3.meta) "moderate").2.2⟩] := by
    simp [hstA, rewrite_step, hst3]
  obtain ⟨recB, hBri⟩ := rewrite_step_append bp gem 2 { stA with calls := stA.calls + 1 }
    (Or.inr (Or.inl rfl))
  obtain ⟨recC, hCri⟩ := rewrite_step_append bp gem 3 { stB with calls := stB.calls + 1 }
    (Or.inr (Or.inr rfl))
  have hBri' : stB.retryInfo = stA.retryInfo ++ [recB] := hBri
  have hCri' : stC.retryInfo = stB.retryInfo ++ [recC] := hCri
  have hAs := rewrite_step_stats bp gem 1 { st3 with calls := st3.calls + 1 } (Or.inl rfl)
  have hBs := rewrite_step_stats bp gem 2 { stA with calls := stA.calls + 1 }
    (Or.inr (Or.inl rfl))
  have hCs := rewrite_step_stats bp gem 3 { stB with calls := stB.calls + 1 }
    (Or.inr (Or.inr rfl))
  have hCm : stC.modestyApplied = true := by
    have h1 : stA.modestyApplied = st3.modestyApplied := by
      simpa [hstA] using hAs.2.2
    have h2 : stB.modestyApplied = stA.modestyApplied := by
      simpa [hstB] using hBs.2.2
    have h3 : stC.modestyApplied = stB.modestyApplied := by
      simpa [hstC] using hCs.2.2
    have h4 : st3.modestyApplied = true := by
      simpa [hst3] using hPm
    rw [h3, h2, h1, h4]
  have hCc : stC.calls + 1 = 4 := by
    have h1 : stA.calls = st3.calls + 1 := by simpa [hstA] using hAs.2.1
    have h2 : stB.calls = stA.calls + 1 := by simpa [hstB] using hBs.2.1
    have h3 : stC.calls = stB.calls + 1 := by simpa [hstC] using hCs.2.1
    have h4 : st3.calls = 0 := by simpa [hst3] using hPc
    omega
  have hri : stC.retryInfo =
      [⟨1, "modesty_contract_preflight", "intimate_detected",
        "Applied deterministic modesty contract (coverage/underlayer allowed)."⟩,
       ⟨1, "preflight_heuristic", "intimate_detected",
        "heuristic_rewrite(strictness=moderate)"⟩,
       ⟨2, "heuristic", "content_rejection",
        (rewrite_for_modesty_heuristic (some st3.meta) (bp st3.meta) "moderate").2.2⟩,
       recB, recC] := by
    rw [hCri', hBri', hAri, hPri]
    simp
  refine ⟨optStrOr ip.mime_type (optStrOr ip.mimeType "image/png"), stC.retryInfo,
    ?_, ?_, ?_, ?_, ?_⟩
  · rw [hrg, hloop, hCm, hCc]
  · rw [hri]; rfl
  · rw [hri]; rfl
  · rw [hri]; rfl
  · rw [hri]; rfl

/-- Witness for C3 amended with the concrete lingerie scenario. -/
theorem safety_recovery_amended_witness :
    ∃ mime ri, run_generation (fun _ => "") (fun _ => Except.ok ([], "", "g"))
        (Except.error "unused")
        (fun a => if a ≤ 3 then ApiResponse.candidate (some "IMAGE_SAFETY")
            [⟨"HARM_CATEGORY_SEXUALLY_EXPLICIT", "HIGH"⟩]
            [⟨some "Blocked by safety filter", none, none⟩]
          else ApiResponse.candidate (some "STOP") []
            [⟨none, some ⟨"AAAA", some "image/png", none⟩, none⟩])
        "upper_body" (some [("description", JValue.jstr "lingerie")]) true =
        Outcome.success "AAAA" mime ri true 4 ∧
      ri.length = 5 ∧
      (List.get? ri 0).map (fun r => r.strategy) = some "modesty_contract_preflight" ∧
      (List.get? ri 1).map (fun r => r.strategy) = some "preflight_heuristic" ∧
      (List.get? ri 2).map (fun r => r.strategy) = some "heuristic" :=
  safety_recovery_amended (fun _ => "") (fun _ => Except.ok ([], "", "g"))
    (Except.error "unused")
    (fun a => if a ≤ 3 then ApiResponse.candidate (some "IMAGE_SAFETY")
        [⟨"HARM_CATEGORY_SEXUALLY_EXPLICIT", "HIGH"⟩]
        [⟨some "Blocked by safety filter", none, none⟩]
      else ApiResponse.candidate (some "STOP") []
        [⟨none, some ⟨"AAAA", some "image/png", none⟩, none⟩])
    "upper_body" [("description", JValue.jstr "lingerie")] true (by decide)
    "IMAGE_SAFETY" "IMAGE_SAFETY" "IMAGE_SAFETY"
    [⟨"HARM_CATEGORY_SEXUALLY_EXPLICIT", "HIGH"⟩]
    [⟨"HARM_CATEGORY_SEXUALLY_EXPLICIT", "HIGH"⟩]
    [⟨"HARM_CATEGORY_SEXUALLY_EXPLICIT", "HIGH"⟩] []
    [⟨some "Blocked by safety filter", none, none⟩]
    [⟨some "Blocked by safety filter", none, none⟩]
    [⟨some "Blocked by safety filter", none, none⟩]
    [⟨none, some ⟨"AAAA", some "image/png", none⟩, none⟩]
    ⟨"AAAA", some "image/png", none⟩
    rfl rfl rfl rfl
    (by decide) (by decide) (by decide) (by decide)

/-- Helper: recursive sanitization maps values and never touches keys. -/
theorem jGet_sanitize_fields : ∀ (kvs : List (String × JValue)) (k : String),
    jGet (sanitize_value_fields kvs) k = (jGet kvs k).map sanitize_value := by
  intro kvs
  induction kvs with
  | nil => intro k; simp [sanitize_value_fields, jGet]
  | cons kv rest ih =>
    intro k
    by_cases hk : (kv.1 == k) = true
    · simp [sanitize_value_fields, jGet, List.find?_cons, hk]
    · have hk' : (kv.1 == k) = false := by simpa using hk
      have ihk := ih k
      simp only [jGet] at ihk
      simp [sanitize_value_fields, jGet, List.find?_cons, hk', ihk]

/-- Helper: a key present in a dict is still found after appending entries. -/
theorem jGet_append_left : ∀ (m l : Meta) (k : String) (w : JValue),
    jGet m k = some w → jGet (m ++ l) k = some w := by
  intro m
  induction m with
  | nil => intro l k w h; simp [jGet] at h
  | cons kv rest ih =>
    intro l k w h
    simp only [jGet, List.cons_append, List.find?_cons] at h ⊢
    by_cases hk : (kv.1 == k) = true
    · simp only [hk] at h ⊢
      exact h
    · have hk' : (kv.1 == k) = false := by simpa using hk
      simp only [hk'] at h ⊢
      exact ih l k w h

/-- Helper: `setdefault` never changes a key that is already present. -/
theorem jGet_setdefault_preserve (m : Meta) (k k' : String) (v w : JValue)
    (h : jGet m k = some w) : jGet (jSetDefault m k' v) k = some w := by
  unfold jSetDefault
  by_cases hk : jHasKey m k' = true
  · simp [hk, h]
  · have hk' : jHasKey m k' = false := by simpa using hk
    simp only [hk', Bool.false_eq_true, if_false]
    exact jGet_append_left m [(k', v)] k w h

/-- Helper: one heuristic rewrite pass keeps `wearing_instructions`, mapping
its value through the recursive sanitizer. -/
theorem heuristic_pass_wearing (m : Meta) (prompt strictness : String) (w : JValue)
    (h : jGet m "wearing_instructions" = some w) :
    jGet (rewrite_for_modesty_heuristic (some m) prompt strictness).1
      "wearing_instructions" = some (sanitize_value w) := by
  have h1 : jGet (sanitize_value_fields m) "wearing_instructions" =
      some (sanitize_value w) := by
    rw [jGet_sanitize_fields, h]
    rfl
  simp only [rewrite_for_modesty_heuristic, Option.getD_some]
  exact jGet_setdefault_preserve _ _ _ _ _
    (jGet_setdefault_preserve _ _ _ _ _
      (jGet_setdefault_preserve _ _ _ _ _
        (jGet_setdefault_preserve _ _ _ _ _
          (jGet_setdefault_preserve _ _ _ _ _ h1))))

/-- C4 amended: any number of heuristic rewrite passes (with arbitrary
prompts and strictness levels) preserves the `wearing_instructions` entry:
the key is still present afterwards and its value is the n-fold recursive
word-sanitization of the original directive — the heuristic rewriter never
drops it.  (The LLM-assisted rewrite, by contrast, adopts the external
model's returned metadata object wholesale and drops the directive whenever
that object is a truthy dict lacking the key — see the counterexample.) -/
theorem heuristic_rewrites_preserve_directives (passes : List (String × String)) :
    ∀ (m : Meta) (w : JValue), jGet m "wearing_instructions" = some w →
      jGet (passes.foldl
          (fun acc pr => (rewrite_for_modesty_heuristic (some acc) pr.1 pr.2).1) m)
        "wearing_instructions" = some (sanitize_value^[passes.length] w) := by
  induction passes with
  | nil =>
    intro m w h
    simpa using h
  | cons pr rest ih =>
    intro m w h
    simp only [List.foldl_cons, List.length_cons]
    have h1 := heuristic_pass_wearing m pr.1 pr.2 w h
    rw [ih _ _ h1, Function.iterate_succ_apply]

/-- Witness for C4 amended: two heuristic passes on a concrete directive. -/
theorem heuristic_rewrites_preserve_directives_witness :
    jGet ([("p", "moderate"), ("q", "max")].foldl
        (fun acc pr => (rewrite_for_modesty_heuristic (some acc) pr.1 pr.2).1)
        [("wearing_instructions", JValue.jstr "wear the bra clipped at the front")])
      "wearing_instructions" =
      some (sanitize_value^[2] (JValue.jstr "wear the bra clipped at the front")) :=
  heuristic_rewrites_preserve_directives [("p", "moderate"), ("q", "max")]
    [("wearing_instructions", JValue.jstr "wear the bra clipped at the front")]
    (JValue.jstr "wear the bra clipped at the front") rfl

/-- C4 counterexample: the LLM-assisted rewrite silently drops
`wearing_instructions`.  The input metadata contains the directive; the
parsed model reply carries a truthy metadata dict without it;
`rewrite_for_modesty_gemini` adopts that dict wholesale (vton.py lines
295-296), and the defensive heuristic pass applied to it by the retry loop
cannot restore the lost key. -/
theorem rewrite_preserves_directives_counterexample :
    jHasKey [("wearing_instructions",
        JValue.jstr "wear the bra straps crossed at the back")]
      "wearing_instructions" = true ∧
    (let g := gemini_rewrite_extract
        (some [("wearing_instructions",
          JValue.jstr "wear the bra straps crossed at the back")])
        [("prompt_additions", JValue.jstr "keep modest"),
         ("metadata", JValue.jobj [("background", JValue.jstr "studio")]),
         ("changes", JValue.jarr [])];
      jHasKey g.1 "wearing_instructions" = false ∧
        jHasKey (rewrite_for_modesty_heuristic (some g.1) g.2 "moderate").1
          "wearing_instructions" = false) := by
  exact ⟨by decide, by decide, by decide⟩

end VTON
